import Mathlib

/-!
Verification development for the masjid check-in backend.

The TypeScript services are embedded shallowly:
* database tables become lists inside an explicit `Db` state record,
* DynamoDB point-of-interest lookups become a function `String → Option Masjid`,
* the haversine distance oracle (floating-point trigonometry in
  `utils/geo.ts`) is abstracted as a parameter `Dist` returning kilometers
  as a rational number; every claim below is about the logic downstream of
  the computed distance, which the source treats as an opaque number,
* JavaScript timestamps become integers (milliseconds), with local-midnight
  truncation parameterised by a timezone offset,
* fallible operations return explicit result records mirroring the
  `{ success, message, ... }` shapes of the source.
-/

namespace MasjidGo

/-- Kilometre distance oracle: `dist lat1 lng1 lat2 lng2`, mirroring
`haversineDistance` from `utils/geo.ts` (abstracted: the services only
compare its output against radii). -/
abbrev Dist := ℚ → ℚ → ℚ → ℚ → ℚ

/-- JavaScript `x || d` for an optional numeric field: `null`/`undefined`
and `0` are falsy, as in `(masjid.checkinRadiusM as number) || 100`. -/
def jsOrNum (x : Option ℚ) (d : ℚ) : ℚ :=
  match x with
  | none => d
  | some v => if v = 0 then d else v

/-! Kernel-computable rational arithmetic.

Batteries marks `Rat.add`, `Rat.sub`, `Rat.mul` and `Rat.inv` as
irreducible, which blocks concrete evaluation of the embedded functions
by `decide`. The embedding therefore uses the equivalent operations below
(via the reducible `Rat.divInt`); the bridge lemmas `qAdd_eq`, `qSub_eq`,
`qMul_eq` and `qDiv_eq` identify them with the field operations of `ℚ`. -/

def qAdd (a b : ℚ) : ℚ :=
  Rat.divInt (a.num * b.den + b.num * a.den) (a.den * b.den)

def qSub (a b : ℚ) : ℚ := qAdd a (-b)

def qMul (a b : ℚ) : ℚ := Rat.divInt (a.num * b.num) ((a.den : Int) * b.den)

def qDiv (a b : ℚ) : ℚ := Rat.divInt (a.num * b.den) ((a.den : Int) * b.num)

theorem qAdd_eq (a b : ℚ) : qAdd a b = a + b := by
  unfold qAdd
  rw [Rat.divInt_eq_div]
  push_cast
  have ha : ((a.den : ℚ)) ≠ 0 := by exact_mod_cast a.den_nz
  have hb : ((b.den : ℚ)) ≠ 0 := by exact_mod_cast b.den_nz
  conv_rhs => rw [← Rat.num_div_den a, ← Rat.num_div_den b]
  rw [div_add_div _ _ ha hb]
  ring_nf

theorem qSub_eq (a b : ℚ) : qSub a b = a - b := by
  rw [qSub, qAdd_eq, ← sub_eq_add_neg]

theorem qMul_eq (a b : ℚ) : qMul a b = a * b := by
  unfold qMul
  rw [Rat.divInt_eq_div]
  push_cast
  conv_rhs => rw [← Rat.num_div_den a, ← Rat.num_div_den b]
  rw [div_mul_div_comm]

theorem qDiv_eq (a b : ℚ) : qDiv a b = a / b := by
  rw [qDiv, Rat.div_def']

/-- JavaScript `Math.round`: floor of `q + 1/2`. -/
def jsRound (q : ℚ) : Int := (qAdd q (mkRat 1 2)).floor

/-- Milliseconds in a day. -/
def msPerDay : Int := 86400000

/-- Calendar-day index of a millisecond timestamp under a fixed timezone
offset `tz` (ms): this is the day whose local midnight
`setHours(0,0,0,0)` truncates `t` to. -/
def dayIndex (tz t : Int) : Int := (t + tz).fdiv msPerDay

/-- Lifecycle status of a check-in record (`check_in_status` enum). -/
inductive CheckInStatus where
  | checked_in
  | completed
  | incomplete
deriving DecidableEq, Repr

/-- `user_profile` row (gamification fields used by the services). -/
structure UserProfile where
  id : Nat
  userId : String
  totalPoints : Int
  monthlyPoints : Int
  uniqueMasjidsVisited : Int
  totalCheckIns : Int
  achievementCount : Int
  showFullNameInLeaderboard : Bool
  leaderboardAlias : Option (List Char)
  currentStreak : Int
  longestStreak : Int
  lastVisitDate : Option Int
deriving DecidableEq, Repr

/-- `check_in` row. -/
structure CheckIn where
  id : Nat
  userProfileId : Nat
  masjidId : String
  masjidName : String
  checkInLat : ℚ
  checkInLng : ℚ
  checkInAt : Int
  checkOutAt : Option Int
  checkOutLat : Option ℚ
  checkOutLng : Option ℚ
  status : CheckInStatus
  basePoints : Int
  bonusPoints : Int
  actualPointsEarned : Int
  checkoutInProximity : Option Bool
  durationMinutes : Option Int
  isPrayerTime : Bool
  prayerName : Option String
  isFirstVisitToMasjid : Bool
deriving DecidableEq, Repr

/-- `achievement_definition` row (fields read by the evaluator). -/
structure AchievementDefinition where
  id : Nat
  atype : String
  isActive : Bool
  requiredCount : Option Int
  bonusPoints : Int
  sortOrder : Int
deriving DecidableEq, Repr

/-- `user_achievement` row. -/
structure UserAchievement where
  id : Nat
  userProfileId : Nat
  achievementDefinitionId : Nat
  currentProgress : Int
  requiredProgress : Int
  progressPercentage : ℚ
  isUnlocked : Bool
  unlockedAt : Option Int
deriving DecidableEq, Repr

/-- `daily_masjid_stats` row (`date` is a day index). -/
structure DailyStat where
  id : Nat
  masjidId : String
  date : Int
  visitorCount : Int
  uniqueVisitorCount : Int
  totalPointsAwarded : Int
deriving DecidableEq, Repr

/-- Point-of-interest item from the DynamoDB directory. `geohash5` is the
5-character spatial-bucket key the seeder stores as `GSI2PK`
(`GEO#<geohash5>`). -/
structure Masjid where
  masjidId : String
  name : String
  lat : ℚ
  lng : ℚ
  checkinRadiusM : Option ℚ
  geohash5 : String
deriving DecidableEq, Repr

/-- The relational state touched by the check-in services. -/
structure Db where
  profiles : List UserProfile
  checkIns : List CheckIn
  userAchievements : List UserAchievement
  dailyStats : List DailyStat
  nextProfileId : Nat
  nextCheckInId : Nat
  nextUserAchievementId : Nat
  nextDailyStatId : Nat
deriving DecidableEq, Repr

/-- The empty database. -/
def Db.empty : Db :=
  { profiles := [], checkIns := [], userAchievements := [], dailyStats := []
    nextProfileId := 0, nextCheckInId := 0, nextUserAchievementId := 0
    nextDailyStatId := 0 }

/-- The zeroed profile inserted by `getOrCreateUserProfile`. -/
def freshProfile (id : Nat) (userId : String) : UserProfile :=
  { id := id, userId := userId, totalPoints := 0
    monthlyPoints := 0, uniqueMasjidsVisited := 0, totalCheckIns := 0
    achievementCount := 0, showFullNameInLeaderboard := true
    leaderboardAlias := none, currentStreak := 0, longestStreak := 0
    lastVisitDate := none }

/-- `getOrCreateUserProfile` from `user.service.ts`: select by `userId`,
otherwise insert a fresh profile with zeroed counters. -/
def getOrCreateUserProfile (userId : String) (db : Db) : UserProfile × Db :=
  match db.profiles.find? (fun p => p.userId == userId) with
  | some p => (p, db)
  | none =>
    let p := freshProfile db.nextProfileId userId
    (p, { db with profiles := db.profiles ++ [p]
                  nextProfileId := db.nextProfileId + 1 })

/-- `getActiveCheckin`: first `check_in` row of the profile with status
`checked_in` (the `select … limit 1` of the source). -/
def getActiveCheckin (profileId : Nat) (db : Db) : Option CheckIn :=
  db.checkIns.find? (fun c =>
    c.userProfileId == profileId && c.status == CheckInStatus.checked_in)

-- Points configuration (`POINTS` in checkin.service.ts).
def BASE_VISIT_COMPLETED : Int := 10
def BASE_VISIT_INCOMPLETE : Int := 5
def PRAYER_TIME_BONUS : Int := 10
def FIRST_VISIT_BONUS : Int := 5

/-- Result shape of `performCheckin`. -/
structure CheckinResult where
  success : Bool
  checkIn : Option CheckIn
  message : String
deriving DecidableEq, Repr

def msgAlreadyCheckedIn : String :=
  "You already have an active check-in. Please checkout first."
def msgMasjidNotFound : String := "Masjid not found"
def msgCheckinSuccess : String := "Check-in successful"
def msgTooFarA : String := "Too far from masjid. You are "
def msgTooFarB : String := "m away, must be within "
def msgTooFarC : String := "m"

/-- The `TooFar` message built by `performCheckin` (template literal with
the rounded distance and the radius threshold interpolated). -/
def tooFarMessage (distanceM checkinRadiusM : ℚ) : String :=
  msgTooFarA ++ toString (jsRound distanceM) ++ msgTooFarB
    ++ toString checkinRadiusM ++ msgTooFarC

/-- `performCheckin` from `checkin.service.ts`. `dir` is the DynamoDB
masjid directory (`getMasjidById`), `dist` the distance oracle, `now` the
insertion timestamp. Returns the result record and the updated database. -/
def performCheckin (dir : String → Option Masjid) (dist : Dist)
    (userId masjidId : String) (lat lng : ℚ) (now : Int) (db : Db) :
    CheckinResult × Db :=
  let pr := getOrCreateUserProfile userId db
  let profile := pr.1
  let db1 := pr.2
  match getActiveCheckin profile.id db1 with
  | some _ =>
    ({ success := false, checkIn := none, message := msgAlreadyCheckedIn }, db1)
  | none =>
    match dir masjidId with
    | none =>
      ({ success := false, checkIn := none, message := msgMasjidNotFound }, db1)
    | some masjid =>
      let checkinRadiusM := jsOrNum masjid.checkinRadiusM 100
      let distanceKm := dist lat lng masjid.lat masjid.lng
      let distanceM := qMul distanceKm 1000
      if distanceM > checkinRadiusM then
        ({ success := false, checkIn := none
           message := tooFarMessage distanceM checkinRadiusM }, db1)
      else
        let previousVisits :=
          (db1.checkIns.filter (fun c =>
            c.userProfileId == profile.id && c.masjidId == masjidId)).length
        let isFirstVisit := previousVisits == 0
        let isPrayerTime := false
        let basePoints := BASE_VISIT_COMPLETED
        let bonusPoints :=
          (if isFirstVisit then FIRST_VISIT_BONUS else 0) +
          (if isPrayerTime then PRAYER_TIME_BONUS else 0)
        let newCheckin : CheckIn :=
          { id := db1.nextCheckInId, userProfileId := profile.id
            masjidId := masjidId, masjidName := masjid.name
            checkInLat := lat, checkInLng := lng, checkInAt := now
            checkOutAt := none, checkOutLat := none, checkOutLng := none
            status := CheckInStatus.checked_in
            basePoints := basePoints, bonusPoints := bonusPoints
            actualPointsEarned := 0, checkoutInProximity := none
            durationMinutes := none, isPrayerTime := isPrayerTime
            prayerName := none, isFirstVisitToMasjid := isFirstVisit }
        ({ success := true, checkIn := some newCheckin
           message := msgCheckinSuccess },
         { db1 with checkIns := db1.checkIns ++ [newCheckin]
                    nextCheckInId := db1.nextCheckInId + 1 })

/-- The pure profile update of `updateUserStats` from `user.service.ts`:
points, counters and the calendar-day streak rule. `tz` fixes the local
timezone, `now` is the checkout instant. -/
def updateUserStatsProfile (tz now : Int) (pointsEarned : Int)
    (isNewMasjid : Bool) (current : UserProfile) : UserProfile :=
  let streaks : Int × Int :=
    match current.lastVisitDate with
    | some last =>
      let daysDiff := dayIndex tz now - dayIndex tz last
      if daysDiff = 1 then
        (current.currentStreak + 1,
         max (current.currentStreak + 1) current.longestStreak)
      else if daysDiff > 1 then
        (1, current.longestStreak)
      else
        (current.currentStreak, current.longestStreak)
    | none => (1, 1)
  { current with
    totalPoints := current.totalPoints + pointsEarned
    monthlyPoints := current.monthlyPoints + pointsEarned
    uniqueMasjidsVisited :=
      if isNewMasjid then current.uniqueMasjidsVisited + 1
      else current.uniqueMasjidsVisited
    totalCheckIns := current.totalCheckIns + 1
    currentStreak := streaks.1
    longestStreak := streaks.2
    lastVisitDate := some now }

/-- `updateUserStats`: select the profile by id (no-op when absent) and
apply the pure update. -/
def updateUserStats (tz now : Int) (profileId : Nat) (pointsEarned : Int)
    (isNewMasjid : Bool) (db : Db) : Db :=
  match db.profiles.find? (fun p => p.id == profileId) with
  | none => db
  | some _ =>
    { db with profiles := db.profiles.map (fun p =>
        if p.id == profileId then
          updateUserStatsProfile tz now pointsEarned isNewMasjid p
        else p) }

/-- The profile-field update performed by `awardAchievementBonus`. -/
def awardBonusProfile (bonusPoints : Int) (p : UserProfile) : UserProfile :=
  { p with totalPoints := p.totalPoints + bonusPoints
           monthlyPoints := p.monthlyPoints + bonusPoints
           achievementCount := p.achievementCount + 1 }

/-- `awardAchievementBonus` from `achievement.service.ts`: credit the
unlock bonus to the profile and bump `achievementCount`. -/
def awardAchievementBonus (profileId : Nat) (bonusPoints : Int) (db : Db) :
    Db :=
  match db.profiles.find? (fun p => p.id == profileId) with
  | none => db
  | some _ =>
    { db with profiles := db.profiles.map (fun p =>
        if p.id == profileId then awardBonusProfile bonusPoints p else p) }

/-- The profile-field update of `updateUserProfile` (leaderboard display
settings): only the supplied keys are written. -/
def updateProfileSettings (newShowFullName : Option Bool)
    (newAlias : Option (Option (List Char))) (p : UserProfile) :
    UserProfile :=
  { p with
    showFullNameInLeaderboard :=
      newShowFullName.getD p.showFullNameInLeaderboard
    leaderboardAlias := newAlias.getD p.leaderboardAlias }

/-- JavaScript falsiness of the nullable `requiredCount` column
(`if (!achievement.requiredCount) continue`). -/
def requiredCountFalsy (x : Option Int) : Bool :=
  match x with
  | none => true
  | some v => v == 0

/-- One iteration of the `updateAchievementProgress` loop for a single
achievement definition (assumed past the falsy `requiredCount` guard). -/
def updateAchievementStep (now : Int) (profileId : Nat)
    (uniqueMasjidsVisited : Int) (ach : AchievementDefinition) (db : Db) :
    Db :=
  let currentProgress := uniqueMasjidsVisited
  let requiredProgress := ach.requiredCount.getD 0
  let progressPercentage : ℚ :=
    min (qMul (qDiv (currentProgress : ℚ) (requiredProgress : ℚ)) 100) 100
  let isUnlocked := decide (currentProgress ≥ requiredProgress)
  match db.userAchievements.find? (fun ua =>
      ua.userProfileId == profileId &&
      ua.achievementDefinitionId == ach.id) with
  | some record =>
    if record.isUnlocked then db
    else
      let mapped := db.userAchievements.map (fun ua =>
        if ua.id == record.id then
          { ua with currentProgress := currentProgress
                    progressPercentage := progressPercentage
                    isUnlocked := isUnlocked
                    unlockedAt := if isUnlocked then some now else none }
        else ua)
      let db2 := { db with userAchievements := mapped }
      if isUnlocked then awardAchievementBonus profileId ach.bonusPoints db2
      else db2
  | none =>
    let newRec : UserAchievement :=
      { id := db.nextUserAchievementId, userProfileId := profileId
        achievementDefinitionId := ach.id
        currentProgress := currentProgress
        requiredProgress := requiredProgress
        progressPercentage := progressPercentage
        isUnlocked := isUnlocked
        unlockedAt := if isUnlocked then some now else none }
    let db2 := { db with
      userAchievements := db.userAchievements ++ [newRec]
      nextUserAchievementId := db.nextUserAchievementId + 1 }
    if isUnlocked then awardAchievementBonus profileId ach.bonusPoints db2
    else db2

/-- `updateAchievementProgress`: iterate over the active explorer
achievement definitions (`defs` is the `achievement_definition` table,
read in `sortOrder` order by the database). -/
def updateAchievementProgress (defs : List AchievementDefinition)
    (now : Int) (profileId : Nat) (uniqueMasjidsVisited : Int) (db : Db) :
    Db :=
  (defs.filter (fun a => a.atype == "explorer" && a.isActive)).foldl
    (fun acc ach =>
      if requiredCountFalsy ach.requiredCount then acc
      else updateAchievementStep now profileId uniqueMasjidsVisited ach acc)
    db

/-- `updateDailyMasjidStats`: upsert keyed on (masjid, calendar day). -/
def updateDailyMasjidStats (tz now : Int) (masjidId : String)
    (pointsAwarded : Int) (db : Db) : Db :=
  let today := dayIndex tz now
  match db.dailyStats.find? (fun s =>
      s.masjidId == masjidId && s.date == today) with
  | some existing =>
    { db with dailyStats := db.dailyStats.map (fun s =>
        if s.id == existing.id then
          { s with visitorCount := existing.visitorCount + 1
                   totalPointsAwarded :=
                     existing.totalPointsAwarded + pointsAwarded }
        else s) }
  | none =>
    { db with
      dailyStats := db.dailyStats ++
        [{ id := db.nextDailyStatId, masjidId := masjidId, date := today
           visitorCount := 1, uniqueVisitorCount := 1
           totalPointsAwarded := pointsAwarded }]
      nextDailyStatId := db.nextDailyStatId + 1 }

/-- Result shape of `performCheckout`. -/
structure CheckoutResult where
  success : Bool
  checkIn : Option CheckIn
  pointsEarned : Option Int
  message : String
deriving DecidableEq, Repr

def msgNoProfile : String := "User profile not found"
def msgNoActive : String := "No active check-in found"
def msgCheckoutFull : String := "Checkout successful! Full points earned."
def msgCheckoutPartial : String :=
  "Checkout completed outside proximity. Partial points earned."

/-- Exit-proximity predicate of `performCheckout`. When the directory has
no record for the visit's masjid the source computes the haversine of
`undefined` coordinates, yielding `NaN`, and `NaN <= radius` is `false`:
modelled as `false` in the `none` case. -/
def checkoutProximity (dir : String → Option Masjid) (dist : Dist)
    (lat lng : ℚ) (masjidId : String) : Bool :=
  match dir masjidId with
  | none => false
  | some m =>
    decide (qMul (dist lat lng m.lat m.lng) 1000 ≤ jsOrNum m.checkinRadiusM 100)

/-- `performCheckout` from `checkin.service.ts`: close the active visit,
finalise points, then update profile stats, achievement progress and the
daily per-masjid stats. `defs` is the achievement-definition table. -/
def performCheckout (dir : String → Option Masjid) (dist : Dist)
    (defs : List AchievementDefinition) (tz : Int) (userId : String)
    (lat lng : ℚ) (now : Int) (db : Db) : CheckoutResult × Db :=
  match db.profiles.find? (fun p => p.userId == userId) with
  | none =>
    ({ success := false, checkIn := none, pointsEarned := none
       message := msgNoProfile }, db)
  | some profile0 =>
    match getActiveCheckin profile0.id db with
    | none =>
      ({ success := false, checkIn := none, pointsEarned := none
         message := msgNoActive }, db)
    | some active =>
      let checkoutInProximity := checkoutProximity dir dist lat lng active.masjidId
      let durationMinutes := (now - active.checkInAt).fdiv 60000
      let status :=
        if checkoutInProximity then CheckInStatus.completed
        else CheckInStatus.incomplete
      let basePoints :=
        if checkoutInProximity then BASE_VISIT_COMPLETED
        else BASE_VISIT_INCOMPLETE
      let actualPointsEarned := basePoints + active.bonusPoints
      let close : CheckIn → CheckIn := fun c =>
        { c with checkOutAt := some now, checkOutLat := some lat
                 checkOutLng := some lng, status := status
                 basePoints := basePoints
                 actualPointsEarned := actualPointsEarned
                 checkoutInProximity := some checkoutInProximity
                 durationMinutes := some durationMinutes }
      let updated := close active
      let db1 := { db with checkIns := db.checkIns.map (fun c =>
        if c.id == active.id then close c else c) }
      let db2 := updateUserStats tz now profile0.id actualPointsEarned
        active.isFirstVisitToMasjid db1
      let newUniqueMasjids :=
        if active.isFirstVisitToMasjid then profile0.uniqueMasjidsVisited + 1
        else profile0.uniqueMasjidsVisited
      let db3 := updateAchievementProgress defs now profile0.id
        newUniqueMasjids db2
      let db4 := updateDailyMasjidStats tz now active.masjidId
        actualPointsEarned db3
      ({ success := true, checkIn := some updated
         pointsEarned := some actualPointsEarned
         message :=
           if checkoutInProximity then msgCheckoutFull else msgCheckoutPartial },
       db4)

/-! ### Geohash encoding (model of the `ngeohash` dependency)

`masjid.service.ts` derives candidate spatial cells with
`Geohash.encode`/`Geohash.neighbors`. The library interleaves
longitude/latitude halving bits (longitude first, strict `>` against the
midpoint) into base-32 characters; `neighbors` decodes the cell center and
re-encodes the center shifted by one full cell size in each of the eight
compass directions, wrapping longitude. All arithmetic is dyadic-rational
and therefore exact in both IEEE doubles and `ℚ`. -/

def GEOHASH_BASE32 : List Char :=
  "0123456789bcdefghjkmnpqrstuvwxyz".data

/-- Current lat/lon bounding box during encoding/decoding. -/
structure GhBox where
  latMin : ℚ
  latMax : ℚ
  lonMin : ℚ
  lonMax : ℚ
deriving DecidableEq, Repr

def ghInitBox : GhBox :=
  { latMin := -90, latMax := 90, lonMin := -180, lonMax := 180 }

/-- The halving-bit sequence of a coordinate: `n` bits, alternating
longitude/latitude starting with `isLon = true`. -/
def ghBits (lat lng : ℚ) : Nat → GhBox → Bool → List Bool
  | 0, _, _ => []
  | n+1, box, isLon =>
    if isLon then
      let mid := qDiv (qAdd box.lonMin box.lonMax) 2
      if lng > mid then
        true :: ghBits lat lng n { box with lonMin := mid } false
      else
        false :: ghBits lat lng n { box with lonMax := mid } false
    else
      let mid := qDiv (qAdd box.latMin box.latMax) 2
      if lat > mid then
        true :: ghBits lat lng n { box with latMin := mid } true
      else
        false :: ghBits lat lng n { box with latMax := mid } true

/-- Most-significant-first binary value of five bits. -/
def bitsToNat (bs : List Bool) : Nat :=
  bs.foldl (fun acc b => 2 * acc + (if b then 1 else 0)) 0

/-- Pack a bit stream into base-32 characters, five bits per character. -/
def ghChars : List Bool → List Char
  | b1 :: b2 :: b3 :: b4 :: b5 :: rest =>
    GEOHASH_BASE32.getD (bitsToNat [b1, b2, b3, b4, b5]) ' ' :: ghChars rest
  | _ => []

/-- `Geohash.encode(lat, lng, precision)`. -/
def geohashEncode (lat lng : ℚ) (precision : Nat) : String :=
  String.mk (ghChars (ghBits lat lng (5 * precision) ghInitBox true))

/-- The five bits of one base-32 geohash character. -/
def ghCharBits (c : Char) : List Bool :=
  let i := GEOHASH_BASE32.indexOf c
  [decide (i / 16 % 2 = 1), decide (i / 8 % 2 = 1), decide (i / 4 % 2 = 1),
   decide (i / 2 % 2 = 1), decide (i % 2 = 1)]

/-- Refine a bounding box by one halving bit. -/
def ghApplyBit (isLon : Bool) (bit : Bool) (box : GhBox) : GhBox :=
  if isLon then
    let mid := qDiv (qAdd box.lonMin box.lonMax) 2
    if bit then { box with lonMin := mid } else { box with lonMax := mid }
  else
    let mid := qDiv (qAdd box.latMin box.latMax) 2
    if bit then { box with latMin := mid } else { box with latMax := mid }

/-- `Geohash.decode_bbox`: the bounding box of a geohash cell. -/
def ghDecodeBox (hash : String) : GhBox :=
  (((hash.data.map ghCharBits).flatten).foldl
    (fun st bit => (ghApplyBit st.2 bit st.1, !st.2))
    (ghInitBox, true)).1

/-- Longitude wrap used by `ngeohash` when shifting across ±180. -/
def ensureValidLon (lon : ℚ) : ℚ :=
  if lon > 180 then qSub lon 360
  else if lon < -180 then qAdd lon 360
  else lon

/-- `Geohash.neighbors`: the eight adjacent cells
`[n, ne, e, se, s, sw, w, nw]`, each obtained by re-encoding the decoded
cell center shifted by one cell size. -/
def geohashNeighbors (hash : String) : List String :=
  let box := ghDecodeBox hash
  let lat := qDiv (qAdd box.latMin box.latMax) 2
  let lon := qDiv (qAdd box.lonMin box.lonMax) 2
  let latStep := qMul (qSub box.latMax lat) 2
  let lonStep := qMul (qSub box.lonMax lon) 2
  let enc := fun (dLat dLon : ℚ) =>
    geohashEncode (qAdd lat (qMul dLat latStep))
      (ensureValidLon (qAdd lon (qMul dLon lonStep))) hash.length
  [enc 1 0, enc 1 1, enc 0 1, enc (-1) 1, enc (-1) 0, enc (-1) (-1),
   enc 0 (-1), enc 1 (-1)]

/-! ### Geo queries (`masjid.service.ts`) -/

/-- Stable JavaScript `Array.prototype.sort` with a numeric-key
comparator: sort by key, ties kept in original order (modelled by an
insertion sort over index-tagged elements with a lexicographic order). -/
def jsStronger {α : Type} (key : α → ℚ) (p q : Nat × α) : Prop :=
  key p.2 < key q.2 ∨ (key p.2 = key q.2 ∧ p.1 ≤ q.1)

instance {α : Type} (key : α → ℚ) : DecidableRel (jsStronger key) := by
  intro p q
  unfold jsStronger
  infer_instance

def jsSortBy {α : Type} (key : α → ℚ) (l : List α) : List α :=
  (l.enum.insertionSort (jsStronger key)).map Prod.snd

/-- Maximum (and default) radius for the nearby query. -/
def MAX_RADIUS_KM : ℚ := 5

/-- A row returned by `getNearbyMasjids`: the spread item plus
`distance` (km), rounded `distanceM`, and the `canCheckin` flag. -/
structure NearbyMasjid where
  item : Masjid
  distance : ℚ
  distanceM : Int
  canCheckin : Bool
deriving DecidableEq, Repr

/-- The per-item annotation of `getNearbyMasjids`. -/
def nearbyAnnotate (dist : Dist) (lat lng : ℚ) (m : Masjid) : NearbyMasjid :=
  let distanceKm := dist lat lng m.lat m.lng
  let distanceM := qMul distanceKm 1000
  let checkinRadiusM := jsOrNum m.checkinRadiusM 100
  { item := m, distance := distanceKm, distanceM := jsRound distanceM
    canCheckin := decide (distanceM ≤ checkinRadiusM) }

/-- The map/filter/sort tail of `getNearbyMasjids`, applied to the
fetched candidate set `allMasjids`. -/
def nearbyPipeline (dist : Dist) (lat lng radiusKm : ℚ)
    (allMasjids : List Masjid) : List NearbyMasjid :=
  let effectiveRadius := min radiusKm MAX_RADIUS_KM
  jsSortBy (fun a => a.distance)
    ((allMasjids.map (nearbyAnnotate dist lat lng)).filter
      (fun a => decide (a.distance ≤ effectiveRadius)))

/-- `getNearbyMasjids`: fetch the center cell plus its eight neighbors at
coarse precision from the spatial index, then annotate/filter/sort.
`table` is the point-of-interest directory. -/
def getNearbyMasjids (dist : Dist) (table : List Masjid) (lat lng : ℚ)
    (radiusKm : ℚ) : List NearbyMasjid :=
  let centerGeohash := geohashEncode lat lng 5
  let cellsToQuery := centerGeohash :: geohashNeighbors centerGeohash
  let allMasjids :=
    (cellsToQuery.map (fun c => table.filter (fun m => m.geohash5 == c))).flatten
  nearbyPipeline dist lat lng radiusKm allMasjids

/-- A row returned by `getCheckinEligibleMasjids`. -/
structure EligibleMasjid where
  item : Masjid
  distanceM : Int
  checkinRadiusM : ℚ
  canCheckin : Bool
deriving DecidableEq, Repr

/-- The per-item annotation of `getCheckinEligibleMasjids`. -/
def eligibleAnnotate (dist : Dist) (lat lng : ℚ) (m : Masjid) :
    EligibleMasjid :=
  let distanceKm := dist lat lng m.lat m.lng
  let distanceM := qMul distanceKm 1000
  let checkinRadiusM := jsOrNum m.checkinRadiusM 100
  { item := m, distanceM := jsRound distanceM
    checkinRadiusM := checkinRadiusM
    canCheckin := decide (distanceM ≤ checkinRadiusM) }

/-- The map/filter/sort tail of `getCheckinEligibleMasjids` (post-filter
by `canCheckin`, ascending sort by rounded meters). -/
def eligiblePipeline (dist : Dist) (lat lng : ℚ)
    (allMasjids : List Masjid) : List EligibleMasjid :=
  jsSortBy (fun a => (a.distanceM : ℚ))
    ((allMasjids.map (eligibleAnnotate dist lat lng)).filter
      (fun a => a.canCheckin))

/-- JavaScript `s.substring(0, n)`: the first `n` characters. -/
def strTake (s : String) (n : Nat) : String := String.mk (s.data.take n)

/-- JavaScript `[...new Set(xs)]`: deduplicate keeping first occurrences
(structural recursion with an accumulator of already-seen values). -/
def jsUniqueAux (seen : List String) : List String → List String
  | [] => []
  | x :: xs =>
    if x ∈ seen then jsUniqueAux seen xs
    else x :: jsUniqueAux (x :: seen) xs

def jsUnique (l : List String) : List String := jsUniqueAux [] l

/-- `getCheckinEligibleMasjids`: encode at the finer 6-character
precision, expand to the nine fine cells, truncate each candidate to the
coarse 5-character index precision, deduplicate, fetch, and post-filter. -/
def getCheckinEligibleMasjids (dist : Dist) (table : List Masjid)
    (lat lng : ℚ) : List EligibleMasjid :=
  let centerGeohash := geohashEncode lat lng 6
  let cellsToQuery := centerGeohash :: geohashNeighbors centerGeohash
  let uniquePrefixes := jsUnique (cellsToQuery.map (fun c => strTake c 5))
  let allMasjids :=
    (uniquePrefixes.map (fun c => table.filter (fun m => m.geohash5 == c))).flatten
  eligiblePipeline dist lat lng allMasjids

/-- Modelled from the spec: the claimed-equivalent derivation that encodes
the query point directly at the coarse 5-character precision and applies
the same nine-cell neighbor expansion (spec §9: "functionally equivalent
to just using the coarse encoding directly with the same neighbor
expansion"), followed by the identical fetch and post-filter. -/
def getCheckinEligibleMasjidsCoarse (dist : Dist) (table : List Masjid)
    (lat lng : ℚ) : List EligibleMasjid :=
  let centerGeohash := geohashEncode lat lng 5
  let cellsToQuery := centerGeohash :: geohashNeighbors centerGeohash
  let uniquePrefixes := jsUnique (cellsToQuery.map (fun c => strTake c 5))
  let allMasjids :=
    (uniquePrefixes.map (fun c => table.filter (fun m => m.geohash5 == c))).flatten
  eligiblePipeline dist lat lng allMasjids

/-! ### Leaderboard display names (`leaderboard.service.ts`)

JavaScript strings are modelled as `List Char`. -/

/-- `censorName`: keep the first character, mask the middle, keep the last
character for names longer than two characters. -/
def censorName (name : List Char) : List Char :=
  if name.length ≤ 2 then
    name.take 1 ++ List.replicate (name.length - 1) '*'
  else
    name.take 1 ++ List.replicate (name.length - 2) '*'
      ++ name.drop (name.length - 1)

/-- JavaScript `s || d` for a nullable string: `null` and the empty string
are falsy. -/
def jsOrStr (x : Option (List Char)) (d : List Char) : List Char :=
  match x with
  | none => d
  | some s => if s = [] then d else s

/-- A joined `user_profile` × `user` row as selected by the leaderboard
queries. -/
structure LeaderboardRow where
  userId : String
  points : Int
  uniqueMasjidsVisited : Int
  showFullNameInLeaderboard : Bool
  leaderboardAlias : Option (List Char)
  userName : List Char
deriving DecidableEq, Repr

/-- Leaderboard entry shape. -/
structure LeaderboardEntry where
  rank : Nat
  displayName : List Char
  points : Int
  masjidsVisited : Int
  isCurrentUser : Option Bool
deriving DecidableEq, Repr

/-- The display-name computation of `getMonthlyLeaderboard` /
`getGlobalLeaderboard`: `row.leaderboardAlias || censorName(row.userName)`. -/
def displayNameOf (row : LeaderboardRow) : List Char :=
  jsOrStr row.leaderboardAlias (censorName row.userName)

/-- The row-to-entry map of the leaderboard reads (`rows` are the
database results, already ordered by points descending). -/
def leaderboardEntries (currentUserId : Option String)
    (rows : List LeaderboardRow) : List LeaderboardEntry :=
  rows.enum.map (fun p =>
    { rank := p.1 + 1, displayName := displayNameOf p.2
      points := p.2.points, masjidsVisited := p.2.uniqueMasjidsVisited
      isCurrentUser := currentUserId.map (fun uid => p.2.userId == uid) })

/-! ## Helper lemmas -/

instance jsStrongerTotal {α : Type} (key : α → ℚ) :
    IsTotal (Nat × α) (jsStronger key) := by
  constructor
  intro p q
  rcases lt_trichotomy (key p.2) (key q.2) with h | h | h
  · exact Or.inl (Or.inl h)
  · rcases Nat.le_total p.1 q.1 with hn | hn
    · exact Or.inl (Or.inr ⟨h, hn⟩)
    · exact Or.inr (Or.inr ⟨h.symm, hn⟩)
  · exact Or.inr (Or.inl h)

instance jsStrongerTrans {α : Type} (key : α → ℚ) :
    IsTrans (Nat × α) (jsStronger key) := by
  constructor
  intro a b c hab hbc
  rcases hab with h1 | ⟨h1, h1n⟩ <;> rcases hbc with h2 | ⟨h2, h2n⟩
  · exact Or.inl (h1.trans h2)
  · exact Or.inl (lt_of_lt_of_eq h1 h2)
  · exact Or.inl (lt_of_eq_of_lt h1 h2)
  · exact Or.inr ⟨h1.trans h2, h1n.trans h2n⟩

theorem jsSortBy_perm {α : Type} (key : α → ℚ) (l : List α) :
    (jsSortBy key l).Perm l := by
  have h := (List.perm_insertionSort (jsStronger key) l.enum).map Prod.snd
  rwa [List.enum_map_snd] at h

theorem jsSortBy_pairwise {α : Type} (key : α → ℚ) (l : List α) :
    (jsSortBy key l).Pairwise (fun a b => key a ≤ key b) := by
  have hs := List.sorted_insertionSort (jsStronger key) l.enum
  unfold jsSortBy
  rw [List.pairwise_map]
  refine hs.imp ?_
  intro a b h
  rcases h with h | ⟨h, _⟩
  · exact le_of_lt h
  · exact le_of_eq h

theorem ghBits_length (lat lng : ℚ) :
    ∀ (m : Nat) (box : GhBox) (isLon : Bool),
      (ghBits lat lng m box isLon).length = m := by
  intro m
  induction m with
  | zero => intro box isLon; rfl
  | succ k ih =>
    intro box isLon
    simp only [ghBits]
    split <;> split <;> simp [ih]

theorem ghBits_split (lat lng : ℚ) (n : Nat) :
    ∀ (m : Nat) (box : GhBox) (isLon : Bool),
      ∃ box2 isLon2, ghBits lat lng (m + n) box isLon =
        ghBits lat lng m box isLon ++ ghBits lat lng n box2 isLon2 := by
  intro m
  induction m with
  | zero =>
    intro box isLon
    exact ⟨box, isLon, by simp [ghBits]⟩
  | succ k ih =>
    intro box isLon
    have hn : k + 1 + n = (k + n) + 1 := by omega
    rw [hn]
    simp only [ghBits]
    split <;> split <;> simpa using ih _ _

theorem ghChars_append : ∀ (l1 l2 : List Bool), l1.length % 5 = 0 →
    ghChars (l1 ++ l2) = ghChars l1 ++ ghChars l2
  | [], _, _ => by simp [ghChars]
  | [_], _, h => by simp at h
  | [_, _], _, h => by simp at h
  | [_, _, _], _, h => by simp at h
  | [_, _, _, _], _, h => by simp at h
  | b1 :: b2 :: b3 :: b4 :: b5 :: rest, l2, h => by
    simp only [List.cons_append, ghChars, List.append_eq]
    rw [ghChars_append rest l2 (by simp only [List.length_cons] at h; omega)]

theorem ghChars_length : ∀ l : List Bool, (ghChars l).length = l.length / 5
  | [] => by simp [ghChars]
  | [_] => by simp [ghChars]
  | [_, _] => by simp [ghChars]
  | [_, _, _] => by simp [ghChars]
  | [_, _, _, _] => by simp [ghChars]
  | b1 :: b2 :: b3 :: b4 :: b5 :: rest => by
    simp only [ghChars, List.length_cons]
    rw [ghChars_length rest]
    omega

/-- Truncating a geohash encoding to a lower precision gives the direct
encoding at that precision (geohashes are prefix codes). -/
theorem geohashEncode_take (lat lng : ℚ) (p q : Nat) (hpq : p ≤ q) :
    strTake (geohashEncode lat lng q) p = geohashEncode lat lng p := by
  unfold geohashEncode strTake
  obtain ⟨box2, isLon2, he⟩ :=
    ghBits_split lat lng (5 * (q - p)) (5 * p) ghInitBox true
  have h5 : 5 * p + 5 * (q - p) = 5 * q := by omega
  rw [← h5, he, ghChars_append _ _ (by rw [ghBits_length]; omega)]
  have hlen : (ghChars (ghBits lat lng (5 * p) ghInitBox true)).length = p := by
    rw [ghChars_length, ghBits_length]
    omega
  exact congrArg String.mk (List.take_left' hlen)

/-! ## Claim theorems -/

/-- Name used by witnesses and counterexamples below. -/
def nameAhmad : List Char := ['A', 'h', 'm', 'a', 'd']

/-- C10: for every non-empty name, `censorName` preserves the length and
the first character, and returns a one-character name unchanged. -/
theorem censorName_length_first (name : List Char) (h : name ≠ []) :
    (censorName name).length = name.length ∧
    (censorName name).head? = name.head? ∧
    (name.length = 1 → censorName name = name) := by
  match name with
  | [] => exact absurd rfl h
  | a :: t =>
    refine ⟨?_, ?_, ?_⟩
    · unfold censorName
      by_cases h2 : (a :: t).length ≤ 2
      · rw [if_pos h2]
        simp only [List.take_succ_cons, List.take_zero, List.length_append,
          List.length_cons, List.length_replicate, List.length_nil]
        omega
      · rw [if_neg h2]
        simp only [List.length_cons] at h2
        simp only [List.take_succ_cons, List.take_zero, List.length_append,
          List.length_cons, List.length_replicate, List.length_nil,
          List.length_drop]
        omega
    · unfold censorName
      split <;> simp [List.take_succ_cons]
    · intro h1
      have ht : t = [] := by
        have := congrArg id h1
        simp only [List.length_cons, id] at this
        exact List.eq_nil_of_length_eq_zero (by omega)
      subst ht
      simp [censorName]

/-- C10 witness: the theorem applied to a concrete five-character name. -/
theorem censorName_length_first_witness :
    (censorName nameAhmad).length = nameAhmad.length ∧
    (censorName nameAhmad).head? = nameAhmad.head? ∧
    (nameAhmad.length = 1 → censorName nameAhmad = nameAhmad) :=
  censorName_length_first nameAhmad (by decide)

def userA : String := "user-a"

/-- A leaderboard row whose user opted in to showing the real name
(`showFullNameInLeaderboard = true`) and supplied no alias. -/
def rowOptIn : LeaderboardRow :=
  { userId := userA, points := 120, uniqueMasjidsVisited := 3
    showFullNameInLeaderboard := true, leaderboardAlias := none
    userName := nameAhmad }

/-- C9: the leaderboard display name ignores the show-real-name opt-in:
for a row with `showFullNameInLeaderboard = true` and no alias, the code
still censors the real name instead of displaying it. -/
theorem displayName_ignores_show_full_name :
    rowOptIn.showFullNameInLeaderboard = true ∧
    displayNameOf rowOptIn = ['A', '*', '*', '*', 'd'] ∧
    displayNameOf rowOptIn ≠ rowOptIn.userName := by decide

/-- C8 (amended): truncating the finer 6-character encoding of the query
point to 5 characters yields exactly the direct 5-character encoding, for
every query coordinate (geohashes are prefix codes); the center-cell
derivation of the two variants therefore coincides. -/
theorem geohash_truncation_equiv (lat lng : ℚ) :
    strTake (geohashEncode lat lng 6) 5 = geohashEncode lat lng 5 :=
  geohashEncode_take lat lng 5 6 (by omega)

def qLatC8 : ℚ := 3
def qLngC8 : ℚ := mkRat 203 2

/-- A plain symmetric distance oracle for the C8 counterexample (the poi
radius below dwarfs any distance value, so the oracle choice is
immaterial to the post-filter). -/
def distC8 : Dist := fun lat1 lng1 lat2 lng2 =>
  qMul 111 (qAdd |qSub lat1 lat2| |qSub lng1 lng2|)

def masjidM2 : String := "M2"
def nameB : String := "B"

/-- A poi bucketed in the coarse cell directly north of the query point's
coarse cell (its coordinates are that cell's center), with a large
configured admission radius. -/
def poiC8 : Masjid :=
  { masjidId := masjidM2, name := nameB
    lat := mkRat 6255 2048, lng := mkRat 207855 2048
    checkinRadiusM := some 1000000000
    geohash5 := geohashEncode (mkRat 6255 2048) (mkRat 207855 2048) 5 }

/-- C8 counterexample: the fine-precision candidate-cell derivation and
the direct coarse derivation with the same nine-cell neighbor expansion
produce different post-filtered result sets on a concrete query point and
poi dataset — the truncated fine neighborhood covers only the center
coarse cell here, so the poi in the northern coarse neighbor cell is
returned by the coarse variant only. -/
theorem eligible_fine_coarse_differ :
    getCheckinEligibleMasjids distC8 [poiC8] qLatC8 qLngC8 ≠
    getCheckinEligibleMasjidsCoarse distC8 [poiC8] qLatC8 qLngC8 := by
  decide

/-- C7: the radius query returns exactly the fetched pois within the
effective radius `min(requested, 5 km)` (as a permutation of the filtered
annotated list), sorted ascending by distance, every returned poi within
the cap, and each annotation's `canCheckin` flag true iff the meter
distance is at most that poi's own admission radius. -/
theorem nearby_query_spec (dist : Dist) (lat lng radiusKm : ℚ)
    (allMasjids : List Masjid) :
    (nearbyPipeline dist lat lng radiusKm allMasjids).Perm
      ((allMasjids.map (nearbyAnnotate dist lat lng)).filter
        (fun a => decide (a.distance ≤ min radiusKm MAX_RADIUS_KM))) ∧
    (nearbyPipeline dist lat lng radiusKm allMasjids).Pairwise
      (fun a b => a.distance ≤ b.distance) ∧
    (∀ a ∈ nearbyPipeline dist lat lng radiusKm allMasjids,
      a.distance ≤ min radiusKm MAX_RADIUS_KM) ∧
    (∀ m ∈ allMasjids,
      ((nearbyAnnotate dist lat lng m).canCheckin = true ↔
        qMul (dist lat lng m.lat m.lng) 1000 ≤ jsOrNum m.checkinRadiusM 100)) := by
  refine ⟨jsSortBy_perm _ _, jsSortBy_pairwise _ _, ?_, ?_⟩
  · intro a ha
    have hmem := (jsSortBy_perm (fun a => a.distance)
      ((allMasjids.map (nearbyAnnotate dist lat lng)).filter
        (fun a => decide (a.distance ≤ min radiusKm MAX_RADIUS_KM)))).mem_iff.mp ha
    have := List.of_mem_filter hmem
    exact of_decide_eq_true this
  · intro m _
    simp [nearbyAnnotate]

def distC7 : Dist := fun _ _ _ _ => 3

def masjidM7 : String := "M7"
def nameC : String := "C"

def mC7 : Masjid :=
  { masjidId := masjidM7, name := nameC, lat := 3, lng := 101
    checkinRadiusM := some 250, geohash5 := geohashEncode 3 101 5 }

/-- C7 witness: the `canCheckin` characterisation applied to a concrete
poi, with the membership hypothesis discharged by computation. -/
theorem nearby_query_spec_witness :
    (nearbyAnnotate distC7 0 0 mC7).canCheckin = true ↔
      qMul (distC7 0 0 mC7.lat mC7.lng) 1000 ≤ jsOrNum mC7.checkinRadiusM 100 :=
  (nearby_query_spec distC7 0 0 10 [mC7]).2.2.2 mC7 (by decide)

/-- C2: for every checkout past the profile and active-visit gates, the
awarded points are the base points recomputed at checkout (10 when the
exit is in proximity, 5 otherwise) plus the `bonusPoints` stored on the
visit at check-in time, and the returned visit record carries the same
breakdown; the proximity predicate is exactly
`distance(m) ≤ admission radius` when the poi resolves. -/
theorem checkout_points_formula (dir : String → Option Masjid)
    (dist : Dist) (defs : List AchievementDefinition) (tz : Int)
    (userId : String) (lat lng : ℚ) (now : Int) (db : Db)
    (profile0 : UserProfile) (active : CheckIn)
    (hp : db.profiles.find? (fun p => p.userId == userId) = some profile0)
    (ha : getActiveCheckin profile0.id db = some active) :
    ((performCheckout dir dist defs tz userId lat lng now db).1.pointsEarned =
      some ((if checkoutProximity dir dist lat lng active.masjidId then
          BASE_VISIT_COMPLETED else BASE_VISIT_INCOMPLETE) +
        active.bonusPoints)) ∧
    (∃ c, (performCheckout dir dist defs tz userId lat lng now db).1.checkIn =
        some c ∧
      c.actualPointsEarned =
        (if checkoutProximity dir dist lat lng active.masjidId then
          BASE_VISIT_COMPLETED else BASE_VISIT_INCOMPLETE) +
          active.bonusPoints ∧
      c.bonusPoints = active.bonusPoints) ∧
    (∀ m, dir active.masjidId = some m →
      (checkoutProximity dir dist lat lng active.masjidId = true ↔
        qMul (dist lat lng m.lat m.lng) 1000 ≤ jsOrNum m.checkinRadiusM 100)) := by
  refine ⟨?_, ?_, ?_⟩
  · simp only [performCheckout, hp, ha]
  · simp only [performCheckout, hp, ha]
    exact ⟨_, rfl, rfl, rfl⟩
  · intro m hm
    simp [checkoutProximity, hm]

/-- C4: for every checkout past the profile and active-visit gates, the
operation succeeds and closes the visit to a terminal status even when
the poi record is missing from the directory; in the missing-poi case the
visit is closed as `incomplete` with `checkoutInProximity = false`
(the lookup failure is tolerated, not fatal). -/
theorem checkout_never_fails_after_gate (dir : String → Option Masjid)
    (dist : Dist) (defs : List AchievementDefinition) (tz : Int)
    (userId : String) (lat lng : ℚ) (now : Int) (db : Db)
    (profile0 : UserProfile) (active : CheckIn)
    (hp : db.profiles.find? (fun p => p.userId == userId) = some profile0)
    (ha : getActiveCheckin profile0.id db = some active) :
    ((performCheckout dir dist defs tz userId lat lng now db).1.success =
      true) ∧
    (∃ c, (performCheckout dir dist defs tz userId lat lng now db).1.checkIn =
        some c ∧ c.status ≠ CheckInStatus.checked_in) ∧
    (dir active.masjidId = none →
      ∃ c, (performCheckout dir dist defs tz userId lat lng now db).1.checkIn =
        some c ∧ c.status = CheckInStatus.incomplete ∧
        c.checkoutInProximity = some false) := by
  refine ⟨?_, ?_, ?_⟩
  · simp only [performCheckout, hp, ha]
  · simp only [performCheckout, hp, ha]
    refine ⟨_, rfl, ?_⟩
    cases hprox : checkoutProximity dir dist lat lng active.masjidId <;> simp
  · intro hdir
    simp only [performCheckout, hp, ha]
    refine ⟨_, rfl, ?_, ?_⟩ <;>
      simp [checkoutProximity, hdir]

/-- C3: for every check-in attempt with no open visit and a resolving
poi, the attempt fails if and only if the meter distance strictly exceeds
the admission radius; a check-in at distance exactly the radius succeeds;
and the failure message interpolates both the (rounded) measured distance
and the radius threshold. -/
theorem checkin_tooFar_boundary (dir : String → Option Masjid)
    (dist : Dist) (userId masjidId : String) (lat lng : ℚ) (now : Int)
    (db : Db) (m : Masjid)
    (hactive : getActiveCheckin (getOrCreateUserProfile userId db).1.id
        (getOrCreateUserProfile userId db).2 = none)
    (hdir : dir masjidId = some m) :
    ((performCheckin dir dist userId masjidId lat lng now db).1.success =
        false ↔
      qMul (dist lat lng m.lat m.lng) 1000 > jsOrNum m.checkinRadiusM 100) ∧
    (qMul (dist lat lng m.lat m.lng) 1000 > jsOrNum m.checkinRadiusM 100 →
      (performCheckin dir dist userId masjidId lat lng now db).1.message =
        tooFarMessage (qMul (dist lat lng m.lat m.lng) 1000)
          (jsOrNum m.checkinRadiusM 100)) ∧
    (qMul (dist lat lng m.lat m.lng) 1000 = jsOrNum m.checkinRadiusM 100 →
      (performCheckin dir dist userId masjidId lat lng now db).1.success =
        true) ∧
    (qMul (dist lat lng m.lat m.lng) 1000 > jsOrNum m.checkinRadiusM 100 →
      ∃ s t u,
        (performCheckin dir dist userId masjidId lat lng now db).1.message =
          s ++ toString (jsRound (qMul (dist lat lng m.lat m.lng) 1000)) ++ t
            ++ toString (jsOrNum m.checkinRadiusM 100) ++ u) := by
  by_cases hgt :
      qMul (dist lat lng m.lat m.lng) 1000 > jsOrNum m.checkinRadiusM 100
  · refine ⟨?_, ?_, ?_, ?_⟩
    · simp only [performCheckin, hactive, hdir, if_pos hgt]
      simpa using hgt
    · intro _
      simp only [performCheckin, hactive, hdir, if_pos hgt]
    · intro heq
      rw [heq] at hgt
      exact absurd hgt (lt_irrefl _)
    · intro _
      refine ⟨msgTooFarA, msgTooFarB, msgTooFarC, ?_⟩
      simp only [performCheckin, hactive, hdir, if_pos hgt]
      rfl
  · refine ⟨?_, ?_, ?_, ?_⟩
    · simp only [performCheckin, hactive, hdir, if_neg hgt]
      simpa using hgt
    · intro h
      exact absurd h hgt
    · intro _
      simp only [performCheckin, hactive, hdir, if_neg hgt]
    · intro h
      exact absurd h hgt

/-! Concrete fixtures for witnesses. -/

def userU : String := "u1"
def masjidM1 : String := "M1"
def nameA : String := "A"

def profW : UserProfile := freshProfile 0 userU

def activeW : CheckIn :=
  { id := 0, userProfileId := 0, masjidId := masjidM1, masjidName := nameA
    checkInLat := 3, checkInLng := 101, checkInAt := 1000
    checkOutAt := none, checkOutLat := none, checkOutLng := none
    status := CheckInStatus.checked_in, basePoints := 10, bonusPoints := 5
    actualPointsEarned := 0, checkoutInProximity := none
    durationMinutes := none, isPrayerTime := false, prayerName := none
    isFirstVisitToMasjid := true }

def dbW : Db :=
  { profiles := [profW], checkIns := [activeW], userAchievements := []
    dailyStats := [], nextProfileId := 1, nextCheckInId := 1
    nextUserAchievementId := 0, nextDailyStatId := 0 }

def mW : Masjid :=
  { masjidId := masjidM1, name := nameA, lat := 3, lng := 101
    checkinRadiusM := some 100, geohash5 := geohashEncode 3 101 5 }

def dirW : String → Option Masjid :=
  fun s => if s == masjidM1 then some mW else none

def dirNone : String → Option Masjid := fun _ => none

/-- 20 m away, always. -/
def distW : Dist := fun _ _ _ _ => mkRat 1 50

/-- Exactly 100 m away, always. -/
def distBoundary : Dist := fun _ _ _ _ => mkRat 1 10

/-- C2 witness: the points formula applied to a concrete checkout. -/
theorem checkout_points_formula_witness :
    (performCheckout dirW distW [] 0 userU 3 101 2000 dbW).1.pointsEarned =
      some ((if checkoutProximity dirW distW 3 101 activeW.masjidId then
          BASE_VISIT_COMPLETED else BASE_VISIT_INCOMPLETE) +
        activeW.bonusPoints) :=
  (checkout_points_formula dirW distW [] 0 userU 3 101 2000 dbW profW
    activeW (by decide) (by decide)).1

/-- C3 witness: a check-in at exactly the admission radius succeeds. -/
theorem checkin_tooFar_boundary_witness :
    (performCheckin dirW distBoundary userU masjidM1 3 101 5 Db.empty).1.success
      = true :=
  (checkin_tooFar_boundary dirW distBoundary userU masjidM1 3 101 5 Db.empty
    mW (by decide) (by decide)).2.2.1 (by decide)

/-- C4 witness: checkout succeeds on a concrete state whose poi is absent
from the directory. -/
theorem checkout_never_fails_after_gate_witness :
    (performCheckout dirNone distW [] 0 userU 3 101 2000 dbW).1.success =
      true :=
  (checkout_never_fails_after_gate dirNone distW [] 0 userU 3 101 2000 dbW
    profW activeW (by decide) (by decide)).1

/-! ### C5: the streak update rule over reachable profiles -/

/-- Profile states reachable by the code: created by
`getOrCreateUserProfile`, then updated only by `updateUserStats`,
`awardAchievementBonus` and the `updateUserProfile` settings write. -/
inductive ProfileReachable : UserProfile → Prop where
  | fresh (id : Nat) (userId : String) :
      ProfileReachable (freshProfile id userId)
  | stats (tz now pointsEarned : Int) (isNewMasjid : Bool) {p : UserProfile} :
      ProfileReachable p →
      ProfileReachable (updateUserStatsProfile tz now pointsEarned isNewMasjid p)
  | bonus (bonusPoints : Int) {p : UserProfile} :
      ProfileReachable p → ProfileReachable (awardBonusProfile bonusPoints p)
  | settings (newShowFullName : Option Bool)
      (newAlias : Option (Option (List Char))) {p : UserProfile} :
      ProfileReachable p →
      ProfileReachable (updateProfileSettings newShowFullName newAlias p)

/-- On every reachable profile, a missing `lastVisitDate` means the
streak counters are still zero. -/
theorem reachable_no_lastVisit_zero_streak {p : UserProfile}
    (h : ProfileReachable p) (hnone : p.lastVisitDate = none) :
    p.currentStreak = 0 ∧ p.longestStreak = 0 := by
  induction h with
  | fresh id userId => exact ⟨rfl, rfl⟩
  | stats tz now pointsEarned isNewMasjid _ _ =>
    exact absurd hnone (by simp [updateUserStatsProfile])
  | bonus bonusPoints _ ih => exact ih hnone
  | settings newShowFullName newAlias _ ih => exact ih hnone

/-- C5: on every reachable profile, `updateUserStats` changes the streak
counters exactly by the calendar-day gap rule — no previous visit:
streak 1 and longest `max(longest, 1)`; gap exactly one day: increment
and raise the longest to `max(new, longest)`; same day: unchanged; gap
greater than one day: reset to 1 — and stamps `lastVisitDate` with the
checkout instant. -/
theorem updateUserStats_streak_rule (tz now pointsEarned : Int)
    (isNewMasjid : Bool) (p : UserProfile) (hp : ProfileReachable p) :
    (p.lastVisitDate = none →
      (updateUserStatsProfile tz now pointsEarned isNewMasjid p).currentStreak
        = 1 ∧
      (updateUserStatsProfile tz now pointsEarned isNewMasjid p).longestStreak
        = max p.longestStreak 1) ∧
    (∀ last, p.lastVisitDate = some last →
      (dayIndex tz now - dayIndex tz last = 1 →
        (updateUserStatsProfile tz now pointsEarned isNewMasjid
            p).currentStreak = p.currentStreak + 1 ∧
        (updateUserStatsProfile tz now pointsEarned isNewMasjid
            p).longestStreak = max (p.currentStreak + 1) p.longestStreak) ∧
      (dayIndex tz now - dayIndex tz last = 0 →
        (updateUserStatsProfile tz now pointsEarned isNewMasjid
            p).currentStreak = p.currentStreak ∧
        (updateUserStatsProfile tz now pointsEarned isNewMasjid
            p).longestStreak = p.longestStreak) ∧
      (dayIndex tz now - dayIndex tz last > 1 →
        (updateUserStatsProfile tz now pointsEarned isNewMasjid
            p).currentStreak = 1 ∧
        (updateUserStatsProfile tz now pointsEarned isNewMasjid
            p).longestStreak = p.longestStreak)) ∧
    (updateUserStatsProfile tz now pointsEarned isNewMasjid p).lastVisitDate
      = some now := by
  refine ⟨?_, ?_, ?_⟩
  · intro hnone
    obtain ⟨_, hlong⟩ := reachable_no_lastVisit_zero_streak hp hnone
    simp [updateUserStatsProfile, hnone, hlong]
  · intro last hlast
    refine ⟨?_, ?_, ?_⟩
    · intro hgap
      simp [updateUserStatsProfile, hlast, hgap]
    · intro hgap
      simp [updateUserStatsProfile, hlast, hgap]
    · intro hgap
      have h1 : dayIndex tz now - dayIndex tz last ≠ 1 := by omega
      simp [updateUserStatsProfile, hlast, h1, hgap]
  · simp [updateUserStatsProfile]

/-- C5 witness: the no-previous-visit case applied to a fresh profile. -/
theorem updateUserStats_streak_rule_witness :
    (updateUserStatsProfile 0 86400000 15 true (freshProfile 0 userU)).currentStreak
      = 1 ∧
    (updateUserStatsProfile 0 86400000 15 true (freshProfile 0 userU)).longestStreak
      = max (freshProfile 0 userU).longestStreak 1 :=
  (updateUserStats_streak_rule 0 86400000 15 true (freshProfile 0 userU)
    (ProfileReachable.fresh 0 userU)).1 rfl

/-! ### C6: achievement evaluation is idempotent on unlocked records -/

/-- `find?` commutes with a map that does not change the predicate. -/
theorem find?_map_of_pred_invariant {α : Type} (f : α → α) (p : α → Bool)
    (h : ∀ x, p (f x) = p x) :
    ∀ l : List α, (l.map f).find? p = (l.find? p).map f := by
  intro l
  induction l with
  | nil => rfl
  | cons x xs ih =>
    by_cases hx : p x
    · rw [List.map_cons, List.find?_cons_of_pos _ (by rw [h]; exact hx),
        List.find?_cons_of_pos _ hx]
      rfl
    · rw [List.map_cons,
        List.find?_cons_of_neg _ (by rw [h]; simpa using hx),
        List.find?_cons_of_neg _ (by simpa using hx), ih]

/-- The loop body of `updateAchievementProgress` leaves the database
entirely unchanged when the user's progress record for the achievement is
already unlocked. -/
theorem updateAchievementStep_noop (now : Int) (profileId : Nat)
    (count : Int) (ach : AchievementDefinition) (db : Db)
    (r : UserAchievement)
    (hfind : db.userAchievements.find? (fun ua =>
        ua.userProfileId == profileId &&
        ua.achievementDefinitionId == ach.id) = some r)
    (hunlocked : r.isUnlocked = true) :
    updateAchievementStep now profileId count ach db = db := by
  simp only [updateAchievementStep, hfind, hunlocked, if_true]

/-- C6: idempotence and exactly-once crediting of the achievement
evaluator's loop body. If the progress record is already unlocked, the
step is a complete no-op (no field changes, no points, no
`achievementCount` increment). If it is not yet unlocked and the updated
progress reaches the requirement, the record is unlocked with the new
progress and timestamp, the profile is credited the bonus exactly here,
and re-running the step afterwards (any instant, any count) changes
nothing. -/
theorem achievement_unlock_idempotent (now : Int) (profileId : Nat)
    (count : Int) (ach : AchievementDefinition) (db : Db)
    (r : UserAchievement)
    (hfind : db.userAchievements.find? (fun ua =>
        ua.userProfileId == profileId &&
        ua.achievementDefinitionId == ach.id) = some r) :
    (r.isUnlocked = true →
      updateAchievementStep now profileId count ach db = db) ∧
    (r.isUnlocked = false →
      count ≥ ach.requiredCount.getD 0 →
      ∀ prof, db.profiles.find? (fun p => p.id == profileId) = some prof →
        ((updateAchievementStep now profileId count ach
            db).userAchievements.find? (fun ua =>
              ua.userProfileId == profileId &&
              ua.achievementDefinitionId == ach.id) =
          some { r with
                  currentProgress := count
                  progressPercentage :=
                    min (qMul (qDiv (count : ℚ)
                      ((ach.requiredCount.getD 0 : Int) : ℚ)) 100) 100
                  isUnlocked := true
                  unlockedAt := some now }) ∧
        ((updateAchievementStep now profileId count ach db).profiles.find?
            (fun p => p.id == profileId) =
          some (awardBonusProfile ach.bonusPoints prof)) ∧
        (∀ now2 count2,
          updateAchievementStep now2 profileId count2 ach
              (updateAchievementStep now profileId count ach db) =
            updateAchievementStep now profileId count ach db)) := by
  constructor
  · intro hunlocked
    exact updateAchievementStep_noop now profileId count ach db r hfind
      hunlocked
  · intro hlocked hge prof hprof
    have hdec : decide (count ≥ ach.requiredCount.getD 0) = true :=
      decide_eq_true hge
    have hfind2 : (updateAchievementStep now profileId count ach
        db).userAchievements.find? (fun ua =>
          ua.userProfileId == profileId &&
          ua.achievementDefinitionId == ach.id) =
        some { r with
                currentProgress := count
                progressPercentage :=
                  min (qMul (qDiv (count : ℚ)
                    ((ach.requiredCount.getD 0 : Int) : ℚ)) 100) 100
                isUnlocked := true
                unlockedAt := some now } := by
      simp only [updateAchievementStep, hfind, hlocked, hdec,
        Bool.false_eq_true, if_false, if_true, awardAchievementBonus]
      split <;>
        (rw [find?_map_of_pred_invariant _ _
            (by intro x; by_cases hx : x.id == r.id <;> simp [hx]), hfind]
         simp)
    refine ⟨hfind2, ?_, ?_⟩
    · have hpid : (prof.id == profileId) = true := by
        have h2 := List.find?_some hprof
        simpa using h2
      simp only [updateAchievementStep, hfind, hlocked, if_false,
        Bool.false_eq_true, hdec, if_true, awardAchievementBonus]
      simp only [hprof]
      rw [find?_map_of_pred_invariant
        (fun p => if p.id == profileId then
          awardBonusProfile ach.bonusPoints p else p)
        (fun p => p.id == profileId)
        (by intro x; by_cases hx : x.id == profileId <;>
          simp [hx, awardBonusProfile]),
        hprof]
      have hpid2 : prof.id = profileId := by simpa using hpid
      simp [hpid2]
    · intro now2 count2
      exact updateAchievementStep_noop now2 profileId count2 ach _ _ hfind2
        rfl

def achX : AchievementDefinition :=
  { id := 7, atype := "explorer", isActive := true, requiredCount := some 3
    bonusPoints := 25, sortOrder := 0 }

def uaUnlocked : UserAchievement :=
  { id := 0, userProfileId := 0, achievementDefinitionId := 7
    currentProgress := 3, requiredProgress := 3, progressPercentage := 100
    isUnlocked := true, unlockedAt := some 500 }

def dbAch : Db :=
  { profiles := [profW], checkIns := [], userAchievements := [uaUnlocked]
    dailyStats := [], nextProfileId := 1, nextCheckInId := 0
    nextUserAchievementId := 1, nextDailyStatId := 0 }

/-- C6 witness: re-running the evaluator step on an already-unlocked
concrete record leaves the concrete database unchanged. -/
theorem achievement_unlock_idempotent_witness :
    updateAchievementStep 900 0 4 achX dbAch = dbAch :=
  (achievement_unlock_idempotent 900 0 4 achX dbAch uaUnlocked
    (by decide)).1 rfl

/-! ### C1: at most one open visit per user -/

/-- Number of open (`checked_in`) visits of a profile. -/
def openVisitCount (profileId : Nat) (db : Db) : Nat :=
  (db.checkIns.filter (fun c => c.userProfileId == profileId &&
    c.status == CheckInStatus.checked_in)).length

/-- Database states reachable from the empty state by check-ins and
check-outs. -/
inductive DbReachable : Db → Prop where
  | init : DbReachable Db.empty
  | checkin (dir : String → Option Masjid) (dist : Dist)
      (userId masjidId : String) (lat lng : ℚ) (now : Int) {db : Db} :
      DbReachable db →
      DbReachable (performCheckin dir dist userId masjidId lat lng now db).2
  | checkout (dir : String → Option Masjid) (dist : Dist)
      (defs : List AchievementDefinition) (tz : Int) (userId : String)
      (lat lng : ℚ) (now : Int) {db : Db} :
      DbReachable db →
      DbReachable (performCheckout dir dist defs tz userId lat lng now db).2

theorem checkIns_getOrCreate (userId : String) (db : Db) :
    (getOrCreateUserProfile userId db).2.checkIns = db.checkIns := by
  unfold getOrCreateUserProfile
  split <;> rfl

theorem getActiveCheckin_congr {db1 db2 : Db} (profileId : Nat)
    (h : db1.checkIns = db2.checkIns) :
    getActiveCheckin profileId db1 = getActiveCheckin profileId db2 := by
  unfold getActiveCheckin
  rw [h]

theorem checkIns_updateUserStats (tz now : Int) (profileId : Nat)
    (pointsEarned : Int) (isNewMasjid : Bool) (db : Db) :
    (updateUserStats tz now profileId pointsEarned isNewMasjid db).checkIns =
      db.checkIns := by
  unfold updateUserStats
  split <;> rfl

theorem checkIns_awardAchievementBonus (profileId : Nat) (b : Int)
    (db : Db) :
    (awardAchievementBonus profileId b db).checkIns = db.checkIns := by
  unfold awardAchievementBonus
  split <;> rfl

theorem checkIns_updateAchievementStep (now : Int) (profileId : Nat)
    (count : Int) (ach : AchievementDefinition) (db : Db) :
    (updateAchievementStep now profileId count ach db).checkIns =
      db.checkIns := by
  simp only [updateAchievementStep]
  split
  · split
    · rfl
    · split
      · rw [checkIns_awardAchievementBonus]
      · rfl
  · split
    · rw [checkIns_awardAchievementBonus]
    · rfl

theorem checkIns_updateAchievementProgress
    (defs : List AchievementDefinition) (now : Int) (profileId : Nat)
    (count : Int) (db : Db) :
    (updateAchievementProgress defs now profileId count db).checkIns =
      db.checkIns := by
  unfold updateAchievementProgress
  generalize defs.filter (fun a => a.atype == "explorer" && a.isActive) = l
  induction l generalizing db with
  | nil => rfl
  | cons a l ih =>
    rw [List.foldl_cons, ih]
    split
    · rfl
    · rw [checkIns_updateAchievementStep]

theorem checkIns_updateDailyMasjidStats (tz now : Int) (masjidId : String)
    (pointsAwarded : Int) (db : Db) :
    (updateDailyMasjidStats tz now masjidId pointsAwarded db).checkIns =
      db.checkIns := by
  simp only [updateDailyMasjidStats]
  split <;> rfl

/-- Mapping a function that never creates new matches cannot increase a
filtered length. -/
theorem length_filter_map_le {α : Type} (f : α → α) (p : α → Bool)
    (h : ∀ x, p (f x) = true → p x = true) :
    ∀ l : List α, ((l.map f).filter p).length ≤ (l.filter p).length := by
  intro l
  induction l with
  | nil => simp
  | cons x xs ih =>
    rw [List.map_cons]
    by_cases hfx : p (f x) = true
    · rw [List.filter_cons_of_pos hfx, List.filter_cons_of_pos (h x hfx)]
      simpa using ih
    · rw [List.filter_cons_of_neg (by simpa using hfx)]
      by_cases hx : p x = true
      · rw [List.filter_cons_of_pos hx]
        exact le_trans ih (Nat.le_succ _)
      · rw [List.filter_cons_of_neg (by simpa using hx)]
        exact ih

/-- The filtered length of a singleton is at most one. -/
theorem filter_singleton_length_le {α : Type} (p : α → Bool) (x : α) :
    (List.filter p [x]).length ≤ 1 := by
  by_cases hx : p x <;> simp [hx]

/-- A check-in preserves the at-most-one-open-visit bound for every
profile: the new record is only inserted when the acting profile had no
open visit, and other profiles' counts are untouched. -/
theorem performCheckin_openVisitCount_le (dir : String → Option Masjid)
    (dist : Dist) (userId masjidId : String) (lat lng : ℚ) (now : Int)
    (db : Db) (pid : Nat) (hle : openVisitCount pid db ≤ 1) :
    openVisitCount pid
      (performCheckin dir dist userId masjidId lat lng now db).2 ≤ 1 := by
  have hcis := checkIns_getOrCreate userId db
  unfold openVisitCount at hle ⊢
  cases hact : getActiveCheckin (getOrCreateUserProfile userId db).1.id
      (getOrCreateUserProfile userId db).2 with
  | some c =>
    simp only [performCheckin, hact]
    rw [hcis]
    exact hle
  | none =>
    cases hdir : dir masjidId with
    | none =>
      simp only [performCheckin, hact, hdir]
      rw [hcis]
      exact hle
    | some m =>
      by_cases hfar : qMul (dist lat lng m.lat m.lng) 1000 >
          jsOrNum m.checkinRadiusM 100
      · simp only [performCheckin, hact, hdir, if_pos hfar]
        rw [hcis]
        exact hle
      · simp only [performCheckin, hact, hdir, if_neg hfar]
        rw [hcis, List.filter_append, List.length_append]
        by_cases hpid : ((getOrCreateUserProfile userId db).1.id == pid) =
            true
        · have hbeq : (getOrCreateUserProfile userId db).1.id = pid := by
            simpa using hpid
          have hnone := hact
          rw [getActiveCheckin_congr _ hcis] at hnone
          unfold getActiveCheckin at hnone
          rw [List.find?_eq_none] at hnone
          have hzero : (db.checkIns.filter (fun c =>
              c.userProfileId == pid &&
              c.status == CheckInStatus.checked_in)).length = 0 := by
            rw [List.length_eq_zero, List.filter_eq_nil_iff]
            intro a ha
            rw [← hbeq]
            simpa using hnone a ha
          rw [hzero]
          simpa using filter_singleton_length_le _ _
        · simp only [List.filter_cons, List.filter_nil, hpid,
            Bool.false_and, if_false, List.length_nil]
          simpa using hle

/-- A checkout never increases any profile's open-visit count. -/
theorem performCheckout_openVisitCount_le (dir : String → Option Masjid)
    (dist : Dist) (defs : List AchievementDefinition) (tz : Int)
    (userId : String) (lat lng : ℚ) (now : Int) (db : Db)
    (profileId : Nat) :
    openVisitCount profileId
        (performCheckout dir dist defs tz userId lat lng now db).2 ≤
      openVisitCount profileId db := by
  cases hp : db.profiles.find? (fun p => p.userId == userId) with
  | none =>
    simp only [performCheckout, hp]
    exact le_refl _
  | some profile0 =>
    cases hact : getActiveCheckin profile0.id db with
    | none =>
      simp only [performCheckout, hp, hact]
      exact le_refl _
    | some active =>
      simp only [performCheckout, hp, hact]
      unfold openVisitCount
      rw [checkIns_updateDailyMasjidStats, checkIns_updateAchievementProgress,
        checkIns_updateUserStats]
      apply length_filter_map_le
      intro c hc
      by_cases hid : (c.id == active.id) = true
      · cases hprox : checkoutProximity dir dist lat lng active.masjidId <;>
          simp [hid, hprox] at hc
      · simpa [hid] using hc

/-- C1: in every database state reachable by check-ins and check-outs,
every profile has at most one open visit; and a check-in attempt by a
user who already has an open visit fails with the already-checked-in
message and appends no visit record. -/
theorem open_visit_invariant :
    (∀ db, DbReachable db → ∀ profileId, openVisitCount profileId db ≤ 1) ∧
    (∀ (dir : String → Option Masjid) (dist : Dist)
      (userId masjidId : String) (lat lng : ℚ) (now : Int) (db : Db)
      (p : UserProfile),
      db.profiles.find? (fun q => q.userId == userId) = some p →
      getActiveCheckin p.id db ≠ none →
      (performCheckin dir dist userId masjidId lat lng now db).1.success =
        false ∧
      (performCheckin dir dist userId masjidId lat lng now db).1.message =
        msgAlreadyCheckedIn ∧
      (performCheckin dir dist userId masjidId lat lng now db).2.checkIns =
        db.checkIns) := by
  constructor
  · intro db hreach
    induction hreach with
    | init => intro profileId; exact Nat.le_succ 0
    | checkin dir dist userId masjidId lat lng now hdb ih =>
      intro profileId
      exact performCheckin_openVisitCount_le dir dist userId masjidId lat
        lng now _ profileId (ih profileId)
    | checkout dir dist defs tz userId lat lng now hdb ih =>
      intro profileId
      exact le_trans
        (performCheckout_openVisitCount_le dir dist defs tz userId lat lng
          now _ profileId)
        (ih profileId)
  · intro dir dist userId masjidId lat lng now db p hfindp hactive
    obtain ⟨c, hc⟩ := Option.ne_none_iff_exists'.mp hactive
    refine ⟨?_, ?_, ?_⟩ <;>
      simp only [performCheckin, getOrCreateUserProfile, hfindp, hc]

/-- A reachable one-user, one-open-visit state. -/
def dbR : Db :=
  (performCheckin dirW distW userU masjidM1 3 101 1000 Db.empty).2

/-- C1 witness: the invariant holds in a concrete reachable state, and a
second check-in attempt while the first visit is open fails and appends
nothing. -/
theorem open_visit_invariant_witness :
    openVisitCount 0 dbR ≤ 1 ∧
    ((performCheckin dirW distW userU masjidM1 3 101 2000 dbR).1.success =
      false ∧
    (performCheckin dirW distW userU masjidM1 3 101 2000 dbR).1.message =
      msgAlreadyCheckedIn ∧
    (performCheckin dirW distW userU masjidM1 3 101 2000 dbR).2.checkIns =
      dbR.checkIns) :=
  ⟨open_visit_invariant.1 dbR
    (DbReachable.checkin dirW distW userU masjidM1 3 101 1000
      DbReachable.init) 0,
   open_visit_invariant.2 dirW distW userU masjidM1 3 101 2000 dbR profW
    (by decide) (by decide)⟩

end MasjidGo
